import Mathlib

/-!
Shallow embedding of the Inferno search proxy (Next.js route handler
`GET /api/search`, source file `src/unnamed/part_001`, with the airport
lookup library whose source is embedded at the end of `README.md`).

Modelling conventions:
* Query-string parameters are `Option String` (`none` = parameter absent;
  `searchParams.get` returning the empty string is the other JS-falsy case).
* JavaScript `parseInt` is modelled for base-10 inputs (optional sign,
  maximal leading digit run after trimming); it returns `Option Int`
  where `none` stands for `NaN`.  Comparisons against `NaN` are `false`,
  matching JS semantics.
* `new Date("YYYY-MM-DD")` is modelled by `parseDate`, which accepts the
  ISO `YYYY-MM-DD` layout only and yields the epoch day count (`Option Int`,
  `none` = Invalid Date).  Date comparisons at midnight UTC coincide with
  epoch-day comparisons.
* The wall clock is a parameter `today : Int` (epoch day of the current
  date); `getDateString today k` models `getDateString(k)` of the source.
* Outbound HTTP calls are modelled by an `Oracle` of provider outcomes and
  the handler additionally returns the ordered list of provider calls it
  issued.  Individual provider result entries (search hits, book docs,
  flight offers) are carried as opaque `Nat` tags wrapped in `Item.ext`:
  the per-entry reshaping code touches no field any claim mentions, and it
  maps each provider entry to exactly one output entry, which is what the
  embedding preserves (order and count).  Finance result entries, whose
  construction is local logic, are embedded field by field.
-/

/-- JS truthiness of a nullable string: `null`/`undefined` and `""` are falsy. -/
def jsFalsy (s : Option String) : Bool :=
  match s with
  | none => true
  | some t => t = ""

/-- `a || d` for a nullable string `a` and default `d` (JS `||` on strings). -/
def jsOrStr (o : Option String) (d : String) : String :=
  match o with
  | none => d
  | some s => if s = "" then d else s

/-- `a || d` for a nullable number (JS `||`: `undefined` and `0` are falsy). -/
def jsOrRat (o : Option Rat) (d : Rat) : Rat :=
  match o with
  | none => d
  | some r => if r = 0 then d else r

/-- `a < b` where `a` may be `NaN` (JS comparison with `NaN` is `false`). -/
def jsLt (a : Option Int) (b : Int) : Bool :=
  match a with
  | none => false
  | some x => decide (x < b)

/-- `a > b` where `a` may be `NaN`. -/
def jsGt (a : Option Int) (b : Int) : Bool :=
  match a with
  | none => false
  | some x => decide (b < x)

/-- `a <= b` where either side may be `NaN` (JS: any comparison with `NaN` is `false`). -/
def jsLe (a b : Option Int) : Bool :=
  match a, b with
  | some x, some y => decide (x ≤ y)
  | _, _ => false

/-- Character-wise lowercase (JS `toLowerCase`; ASCII-faithful). -/
def jsToLower (s : String) : String :=
  ⟨s.data.map Char.toLower⟩

/-- Character-wise uppercase (JS `toUpperCase`; ASCII-faithful). -/
def jsToUpper (s : String) : String :=
  ⟨s.data.map Char.toUpper⟩

/-- Leading and trailing whitespace removal (JS `trim`). -/
def jsTrim (s : String) : String :=
  ⟨((s.data.dropWhile Char.isWhitespace).reverse.dropWhile Char.isWhitespace).reverse⟩

/-- Split a character list on a separator character (JS `split` on one char). -/
def splitOnChar (sep : Char) : List Char → List (List Char)
  | [] => [[]]
  | c :: t =>
    let r := splitOnChar sep t
    if c = sep then [] :: r
    else
      match r with
      | h :: t2 => (c :: h) :: t2
      | [] => [[c]]

/-- Digit run to a number (base 10). -/
def digitsToNat (cs : List Char) : Nat :=
  cs.foldl (fun acc c => acc * 10 + (c.toNat - 48)) 0

/-- Maximal leading digit run, `none` when it is empty. -/
def leadingNat (cs : List Char) : Option Nat :=
  let ds := cs.takeWhile Char.isDigit
  if ds.isEmpty then none else some (digitsToNat ds)

/-- JS `parseInt(s)` for base-10 inputs: trim, optional sign, maximal digit
run; `none` models `NaN`. -/
def parseIntJS (s : String) : Option Int :=
  match (jsTrim s).data with
  | '-' :: rest => (leadingNat rest).map (fun n => -(n : Int))
  | '+' :: rest => (leadingNat rest).map (fun n => (n : Int))
  | cs => (leadingNat cs).map (fun n => (n : Int))

/-- `String(x).replace(/[,\s]/g, "")`. -/
def stripCommaSpace (s : String) : String :=
  ⟨s.data.filter (fun c => !(c = ',' || c.isWhitespace))⟩

/-- `parseInt(String(totalResults).replace(/[,\s]/g, "")) || 0` (route line 808). -/
def totalResultsNum (s : String) : Int :=
  (parseIntJS (stripCommaSpace s)).getD 0

/-- `Math.ceil(a / b)` for integer `a` and positive integer `b`. -/
def jsCeilDiv (a b : Int) : Int :=
  -(Int.fdiv (-a) b)

/-- Leap year test of the proleptic Gregorian calendar. -/
def isLeap (y : Int) : Bool :=
  y % 4 = 0 && (y % 100 ≠ 0 || y % 400 = 0)

/-- Number of days of month `m` in year `y`. -/
def daysInMonth (y m : Int) : Int :=
  if m = 2 then (if isLeap y then 29 else 28)
  else if m = 4 || m = 6 || m = 9 || m = 11 then 30
  else 31

/-- Civil date to days since 1970-01-01 (standard civil-days algorithm). -/
def civilToDays (y m d : Int) : Int :=
  let yy := if m ≤ 2 then y - 1 else y
  let era := Int.fdiv yy 400
  let yoe := yy - era * 400
  let mp := if 2 < m then m - 3 else m + 9
  let doy := Int.fdiv (153 * mp + 2) 5 + d - 1
  let doe := yoe * 365 + Int.fdiv yoe 4 - Int.fdiv yoe 100 + doy
  era * 146097 + doe - 719468

/-- Days since 1970-01-01 back to the civil date (year, month, day). -/
def daysToCivil (z0 : Int) : Int × Int × Int :=
  let z := z0 + 719468
  let era := Int.fdiv z 146097
  let doe := z - era * 146097
  let yoe := Int.fdiv (doe - Int.fdiv doe 1460 + Int.fdiv doe 36524 - Int.fdiv doe 146096) 365
  let y := yoe + era * 400
  let doy := doe - (365 * yoe + Int.fdiv yoe 4 - Int.fdiv yoe 100)
  let mp := Int.fdiv (5 * doy + 2) 153
  let d := doy - Int.fdiv (153 * mp + 2) 5 + 1
  let m := if mp < 10 then mp + 3 else mp - 9
  (if m ≤ 2 then y + 1 else y, m, d)

/-- Zero-padded two-digit rendering of a day or month number. -/
def pad2 (n : Int) : String :=
  if n < 10 then "0" ++ toString n else toString n

/-- `getDateString(daysFromNow)` (route lines 31-35): the ISO date string of
`today + daysFromNow`. -/
def getDateString (today daysFromNow : Int) : String :=
  let c := daysToCivil (today + daysFromNow)
  toString c.1 ++ "-" ++ pad2 c.2.1 ++ "-" ++ pad2 c.2.2

/-- All-digit check for a component of an ISO date string. -/
def allDigits (s : String) : Bool :=
  !s.data.isEmpty && s.data.all Char.isDigit

/-- `new Date(s)` for the `YYYY-MM-DD` layout, as the epoch day; any other
layout (or out-of-range component) is Invalid Date, i.e. `none`. -/
def parseDate (s : String) : Option Int :=
  match (splitOnChar '-' s.data).map (fun l => (⟨l⟩ : String)) with
  | [ys, ms, ds] =>
    if ys.length = 4 && ms.length = 2 && ds.length = 2
        && allDigits ys && allDigits ms && allDigits ds then
      let y : Int := (digitsToNat ys.data : Nat)
      let m : Int := (digitsToNat ms.data : Nat)
      let d : Int := (digitsToNat ds.data : Nat)
      if 1 ≤ m && m ≤ 12 && 1 ≤ d && d ≤ daysInMonth y m then
        some (civilToDays y m d)
      else none
    else none
  | _ => none

/-- Does `needle` occur inside the character list (JS `String.includes`)? -/
def subOccurs (needle : List Char) : List Char → Bool
  | [] => needle.isEmpty
  | c :: t => needle.isPrefixOf (c :: t) || subOccurs needle t

/-- JS `hay.includes(needle)`. -/
def containsSub (hay needle : String) : Bool :=
  subOccurs needle.data hay.data

/-- One entry of the static airport lookup table (`lib/airports`). -/
structure Airport where
  code : String
  name : String
  city : String
  country : String
deriving DecidableEq, Repr

/-- The static airport table of `lib/airports` (source embedded in `README.md`). -/
def airports : List Airport := [
  ⟨"JFK", "John F. Kennedy International Airport", "New York", "US"⟩,
  ⟨"LGA", "LaGuardia Airport", "New York", "US"⟩,
  ⟨"EWR", "Newark Liberty International Airport", "New York", "US"⟩,
  ⟨"LAX", "Los Angeles International Airport", "Los Angeles", "US"⟩,
  ⟨"SFO", "San Francisco International Airport", "San Francisco", "US"⟩,
  ⟨"ORD", "O\x27Hare International Airport", "Chicago", "US"⟩,
  ⟨"MDW", "Midway International Airport", "Chicago", "US"⟩,
  ⟨"MIA", "Miami International Airport", "Miami", "US"⟩,
  ⟨"DFW", "Dallas/Fort Worth International Airport", "Dallas", "US"⟩,
  ⟨"DEN", "Denver International Airport", "Denver", "US"⟩,
  ⟨"ATL", "Hartsfield-Jackson Atlanta International Airport", "Atlanta", "US"⟩,
  ⟨"SEA", "Seattle-Tacoma International Airport", "Seattle", "US"⟩,
  ⟨"LAS", "McCarran International Airport", "Las Vegas", "US"⟩,
  ⟨"PHX", "Phoenix Sky Harbor International Airport", "Phoenix", "US"⟩,
  ⟨"BOS", "Logan International Airport", "Boston", "US"⟩,
  ⟨"MSP", "Minneapolis-Saint Paul International Airport", "Minneapolis", "US"⟩,
  ⟨"DTW", "Detroit Metropolitan Wayne County Airport", "Detroit", "US"⟩,
  ⟨"PHL", "Philadelphia International Airport", "Philadelphia", "US"⟩,
  ⟨"CLT", "Charlotte Douglas International Airport", "Charlotte", "US"⟩,
  ⟨"IAH", "George Bush Intercontinental Airport", "Houston", "US"⟩,
  ⟨"HOU", "William P. Hobby Airport", "Houston", "US"⟩,
  ⟨"LHR", "London Heathrow Airport", "London", "UK"⟩,
  ⟨"LGW", "London Gatwick Airport", "London", "UK"⟩,
  ⟨"CDG", "Charles de Gaulle Airport", "Paris", "FR"⟩,
  ⟨"ORY", "Orly Airport", "Paris", "FR"⟩,
  ⟨"FRA", "Frankfurt Airport", "Frankfurt", "DE"⟩,
  ⟨"AMS", "Amsterdam Airport Schiphol", "Amsterdam", "NL"⟩,
  ⟨"MAD", "Madrid-Barajas Airport", "Madrid", "ES"⟩,
  ⟨"BCN", "Barcelona-El Prat Airport", "Barcelona", "ES"⟩,
  ⟨"FCO", "Leonardo da Vinci International Airport", "Rome", "IT"⟩,
  ⟨"MXP", "Malpensa Airport", "Milan", "IT"⟩,
  ⟨"ZUR", "Zurich Airport", "Zurich", "CH"⟩,
  ⟨"VIE", "Vienna International Airport", "Vienna", "AT"⟩,
  ⟨"CPH", "Copenhagen Airport", "Copenhagen", "DK"⟩,
  ⟨"ARN", "Stockholm Arlanda Airport", "Stockholm", "SE"⟩,
  ⟨"OSL", "Oslo Airport", "Oslo", "NO"⟩,
  ⟨"NRT", "Narita International Airport", "Tokyo", "JP"⟩,
  ⟨"HND", "Haneda Airport", "Tokyo", "JP"⟩,
  ⟨"ICN", "Incheon International Airport", "Seoul", "KR"⟩,
  ⟨"PEK", "Beijing Capital International Airport", "Beijing", "CN"⟩,
  ⟨"PVG", "Shanghai Pudong International Airport", "Shanghai", "CN"⟩,
  ⟨"HKG", "Hong Kong International Airport", "Hong Kong", "HK"⟩,
  ⟨"SIN", "Singapore Changi Airport", "Singapore", "SG"⟩,
  ⟨"BKK", "Suvarnabhumi Airport", "Bangkok", "TH"⟩,
  ⟨"KUL", "Kuala Lumpur International Airport", "Kuala Lumpur", "MY"⟩,
  ⟨"YYZ", "Toronto Pearson International Airport", "Toronto", "CA"⟩,
  ⟨"YVR", "Vancouver International Airport", "Vancouver", "CA"⟩,
  ⟨"YUL", "Montreal-Pierre Elliott Trudeau International Airport", "Montreal", "CA"⟩,
  ⟨"SYD", "Sydney Kingsford Smith Airport", "Sydney", "AU"⟩,
  ⟨"MEL", "Melbourne Airport", "Melbourne", "AU"⟩]

/-- `findAirportByInput` of `lib/airports`: exact code match, then exact city
match, then partial city match (either direction of `includes`), then partial
airport-name match. -/
def findAirportByInput (input : String) : Option Airport :=
  if input = "" || (jsTrim input).length = 0 then none
  else
    let searchTerm := jsToLower (jsTrim input)
    match airports.find? (fun a => jsToLower a.code = searchTerm) with
    | some a => some a
    | none =>
      match airports.find? (fun a => jsToLower a.city = searchTerm) with
      | some a => some a
      | none =>
        match airports.find? (fun a =>
            containsSub (jsToLower a.city) searchTerm
              || containsSub searchTerm (jsToLower a.city)) with
        | some a => some a
        | none => airports.find? (fun a => containsSub (jsToLower a.name) searchTerm)

/-- The inline 3-letter fallback of the flights branch: the input is accepted
verbatim (uppercased) when it is exactly three characters matching the
case-insensitive regex of three letters (route lines 456-463 / 476-482). -/
def threeLetterCode (input : String) : Bool :=
  input.length = 3 && input.data.all Char.isAlpha

/-- Resolution of a free-text airport input in the flights branch: lookup
result code when found, else the uppercased input when it is a 3-letter
alphabetic code, else rejection (route lines 451-464, done once for the
departure and once for the arrival input). -/
def resolveAirportInput (input : String) : Option String :=
  match findAirportByInput input with
  | some a => some a.code
  | none => if threeLetterCode input then some (jsToUpper input) else none

/-- Alpha Vantage stock entry as read by the market branch (`StockData`). -/
structure Stock where
  ticker : String
  company_name : Option String
  price : String
  change_amount : String
  change_percentage : String
  volume : String
deriving DecidableEq, Repr

/-- One entry of `bestMatches` as read by the symbol branch (keys
`1. symbol`, `2. name`, `3. type`, `4. region`). -/
structure SymbolMatch where
  symbol : String
  name : String
  type : String
  region : String
deriving DecidableEq, Repr

/-- `SYMBOL_SEARCH` payload: the `bestMatches` array may be absent. -/
structure SymbolData where
  bestMatches : Option (List SymbolMatch)
deriving DecidableEq, Repr

/-- `GLOBAL_QUOTE` inner object as read by the symbol branch. -/
structure GQuote where
  price : String
  change : String
  changePercent : String
  volume : String
deriving DecidableEq, Repr

/-- `GLOBAL_QUOTE` payload: the `Global Quote` object may be absent. -/
structure QuoteData where
  globalQuote : Option GQuote
deriving DecidableEq, Repr

/-- `TOP_GAINERS_LOSERS` payload: either array may be absent. -/
structure MarketData where
  top_gainers : Option (List Stock)
  top_losers : Option (List Stock)
deriving DecidableEq, Repr

/-- Open Library `search.json` payload as read by the books branch;
`docs` entries are opaque. -/
structure OLData where
  num_found : Option Nat
  docs : List Nat
deriving DecidableEq, Repr

/-- SerpAPI `search_metadata` sub-object as read by the route. -/
structure SerpSM where
  time_taken_displayed : Option Rat
  processed_time : Option Rat
  total_time_taken : Option Rat
  total_results : Option String
deriving DecidableEq, Repr

/-- SerpAPI `search_information` sub-object as read by the route. -/
structure SerpInfo where
  total_results : Option String
deriving DecidableEq, Repr

/-- SerpAPI response payload as read by the route; result entries are
opaque (an absent array and an empty one are identical after `|| []`). -/
structure SerpData where
  sm : Option SerpSM
  search_information : Option SerpInfo
  organic_results : List Nat
  images_results : List Nat
  video_results : List Nat
  news_results : List Nat
  shopping_results : List Nat
  local_results : List Nat
  place_results : Option Nat
  best_flights : List Nat
  other_flights : List Nat
deriving DecidableEq, Repr

/-- Failure of an outbound `axios` call, as discriminated by the catch
block: an HTTP error response, a timeout (`ECONNABORTED`), another axios
error, or a non-axios error. -/
inductive FailKind where
  | axiosHttp (status : Nat)
  | axiosTimeout
  | axiosOther
  | nonAxios
deriving DecidableEq, Repr

/-- Outcomes of the provider calls a single request can make.  Stateless
providers: one fixed outcome per endpoint (`quote` is per symbol). -/
structure Oracle where
  openLibrary : Except FailKind OLData
  topGainersLosers : Option MarketData
  symbolSearch : Option SymbolData
  quote : String → Option QuoteData
  serp : Except FailKind SerpData

/-- Parameters of the Open Library call (books branch). -/
structure OLParams where
  q : String
  limit : Nat
  offset : Option Int
deriving DecidableEq, Repr

/-- Parameters of the SerpAPI call, mirroring every key the route can set
(`none` = key absent / deleted). -/
structure SerpParams where
  engine : String
  q : Option String
  api_key : String
  location : Option String
  gl : String
  hl : String
  tbm : Option String
  num : Option Nat
  start : Option Int
  type : Option String
  ll : Option String
  departure_id : Option String
  arrival_id : Option String
  outbound_date : Option String
  return_date : Option String
  travel_class : Option String
  adults : Option String
  currency : Option String
deriving DecidableEq, Repr

/-- One outbound HTTP GET issued by the handler, in issue order. -/
inductive ProviderCall where
  | openLibrary (params : OLParams)
  | alphaTopGainers (apikey : String)
  | alphaSymbolSearch (keywords apikey : String)
  | alphaQuote (symbol apikey : String)
  | serpapi (params : SerpParams)
deriving DecidableEq, Repr

/-- The provider an outbound call goes to. -/
inductive ProviderName where
  | openLib
  | alphaVantage
  | serpApi
deriving DecidableEq, Repr

/-- Which provider a call addresses. -/
def providerOf : ProviderCall → ProviderName
  | .openLibrary _ => .openLib
  | .alphaTopGainers _ => .alphaVantage
  | .alphaSymbolSearch _ _ => .alphaVantage
  | .alphaQuote _ _ => .alphaVantage
  | .serpapi _ => .serpApi

/-- The API key a call carries, if any (Open Library calls carry none). -/
def callApiKey : ProviderCall → Option String
  | .openLibrary _ => none
  | .alphaTopGainers k => some k
  | .alphaSymbolSearch _ k => some k
  | .alphaQuote _ k => some k
  | .serpapi ps => some ps.api_key

/-- A finance result record as pushed by the finance branch. -/
structure StockResult where
  title : String
  link : String
  displayed_link : String
  snippet : String
  price : String
  change : String
  change_percentage : String
  volume : String
  ticker : String
  company_name : Option String
  type : Option String
  region : Option String
deriving DecidableEq, Repr

/-- One entry of the `results` array of a successful response: an entry
passed through (reshaped) from a provider payload, or a finance record. -/
inductive Item where
  | ext (raw : Nat)
  | stock (r : StockResult)
deriving DecidableEq, Repr

/-- The `search_metadata` object of a successful response.  `current_page`
is `Option Int` because the requested page can be `NaN` (serialised as
`null`). -/
structure SearchMetadata where
  total_results : String
  time_taken_displayed : Rat
  search_type : String
  current_page : Option Int
  total_pages : Int
  has_next_page : Bool
  has_prev_page : Bool
  results_per_page : Nat
deriving DecidableEq, Repr

/-- The body of a successful response: exactly the three top-level fields
the route returns. -/
structure SuccessBody where
  results : List Item
  search_metadata : SearchMetadata
  search_type : String
deriving DecidableEq, Repr

/-- A response of the handler: HTTP 200 with a success body, or an error
status with a JSON body carrying an `error` message. -/
inductive ApiResponse where
  | ok (body : SuccessBody)
  | err (status : Nat) (message : String)
deriving DecidableEq, Repr

/-- HTTP status of a response (`NextResponse.json` defaults to 200). -/
def ApiResponse.statusCode : ApiResponse → Nat
  | .ok _ => 200
  | .err s _ => s

/-- The `error` field of the response body, when present. -/
def ApiResponse.errorField : ApiResponse → Option String
  | .ok _ => none
  | .err _ m => some m

/-- The catch block of the route (lines 843-861): map a provider failure to
the proxy error response. -/
def catchResponse (f : FailKind) : ApiResponse :=
  match f with
  | .axiosHttp s =>
    if s = 401 then .err 401 "Invalid SerpAPI key"
    else if s = 429 then .err 429 "API rate limit exceeded. Please try again later."
    else if s = 400 then .err 400 "Invalid search parameters"
    else .err 500 "Search failed"
  | .axiosTimeout => .err 408 "Search request timed out"
  | .axiosOther => .err 500 "Search failed"
  | .nonAxios => .err 500 "Search failed"

/-- The inbound request: the query-string parameters the route reads. -/
structure Request where
  q : Option String
  type : Option String
  page : Option String
  lat : Option String
  lng : Option String
  zoom : Option String
  departure_id : Option String
  arrival_id : Option String
  outbound_date : Option String
  return_date : Option String
  flight_type : Option String
  travel_class : Option String
  adults : Option String
deriving DecidableEq, Repr

/-- The process environment as the route reads it. -/
structure Env where
  SERPAPI_KEY : Option String
deriving DecidableEq, Repr

/-- The Open Library request parameters of the books branch (lines
121-130): fixed limit 20, offset only beyond page 1. -/
def olParamsOf (query : String) (page : Option Int) : OLParams :=
  { q := query
    limit := 20
    offset :=
      match page with
      | some p => if 1 < p then some ((p - 1) * 20) else none
      | none => none }

/-- Books branch (route lines 120-242): one Open Library call, Open Library
pagination math, early return. -/
def booksBranch (query : String) (page : Option Int) (o : Oracle) :
    ApiResponse × List ProviderCall :=
  let olParams : OLParams := olParamsOf query page
  match o.openLibrary with
  | .error f => (catchResponse f, [.openLibrary olParams])
  | .ok ol =>
    let results := ol.docs.map Item.ext
    let totalResults :=
      match ol.num_found with
      | some n => toString n
      | none => toString results.length
    let totalResultsNumB : Int := (ol.num_found.getD 0 : Nat)
    let totalPages := jsCeilDiv totalResultsNumB 20
    let hasNextPage := jsLt page totalPages && jsLt page 10
    let hasPrevPage := jsGt page 1
    (.ok { results := results,
           search_metadata :=
             { total_results := totalResults,
               time_taken_displayed := mkRat 1 2,
               search_type := "books",
               current_page := page,
               total_pages := min totalPages 10,
               has_next_page := hasNextPage,
               has_prev_page := hasPrevPage,
               results_per_page := 20 },
           search_type := "books" },
     [.openLibrary olParams])

/-- The market-query test of the finance branch (route line 251). -/
def isMarketQuery (query : String) : Bool :=
  containsSub (jsToLower query) "market" || containsSub (jsToLower query) "gainers"
    || containsSub (jsToLower query) "losers"

/-- A top-gainer entry pushed by the finance market branch (lines 256-268). -/
def gainerItem (stock : Stock) : Item :=
  .stock
    { title := stock.ticker ++ " - " ++ jsOrStr stock.company_name stock.ticker,
      link := "https://finance.yahoo.com/quote/" ++ stock.ticker,
      displayed_link := "finance.yahoo.com",
      snippet := "Top Gainer: " ++ stock.price ++ " (" ++ stock.change_percentage ++ ")",
      price := stock.price,
      change := stock.change_amount,
      change_percentage := stock.change_percentage,
      volume := stock.volume,
      ticker := stock.ticker,
      company_name := none,
      type := none,
      region := none }

/-- A top-loser entry pushed by the finance market branch (lines 273-285). -/
def loserItem (stock : Stock) : Item :=
  .stock
    { title := stock.ticker ++ " - " ++ jsOrStr stock.company_name stock.ticker,
      link := "https://finance.yahoo.com/quote/" ++ stock.ticker,
      displayed_link := "finance.yahoo.com",
      snippet := "Top Loser: " ++ stock.price ++ " (" ++ stock.change_percentage ++ ")",
      price := stock.price,
      change := stock.change_amount,
      change_percentage := stock.change_percentage,
      volume := stock.volume,
      ticker := stock.ticker,
      company_name := none,
      type := none,
      region := none }

/-- A symbol-search entry pushed by the finance symbol branch (lines
296-331): quote fields fall back to `N/A` when the quote call failed or
carried no `Global Quote`. -/
def symbolItem (m : SymbolMatch) (q : Option QuoteData) : Item :=
  let gq := q.bind QuoteData.globalQuote
  let price := match gq with | some g => g.price | none => "N/A"
  let change := match gq with | some g => g.change | none => "N/A"
  let changePercent := match gq with | some g => g.changePercent | none => "N/A"
  let volume := match gq with | some g => g.volume | none => "N/A"
  .stock
    { title := m.symbol ++ " - " ++ m.name,
      link := "https://finance.yahoo.com/quote/" ++ m.symbol,
      displayed_link := "finance.yahoo.com",
      snippet := m.type ++ " in " ++ m.region ++ " - Price: $" ++ price
        ++ ", Change: " ++ change ++ " (" ++ changePercent ++ ")",
      price := price,
      change := change,
      change_percentage := changePercent,
      volume := volume,
      ticker := m.symbol,
      company_name := some m.name,
      type := some m.type,
      region := some m.region }

/-- The fixed response envelope of the finance branch (lines 339-352). -/
def financeResponse (results : List Item) : ApiResponse :=
  .ok { results := results,
        search_metadata :=
          { total_results := toString results.length,
            time_taken_displayed := mkRat 1 2,
            search_type := "finance",
            current_page := some 1,
            total_pages := 1,
            has_next_page := false,
            has_prev_page := false,
            results_per_page := results.length },
        search_type := "finance" }

/-- The hardcoded Alpha Vantage API key of the finance branch (line 246). -/
def alphaVantageKey : String := "EMMEZJF2DJ08Y82M"

/-- Finance branch (lines 245-353): market queries make one
`TOP_GAINERS_LOSERS` call; other queries make a `SYMBOL_SEARCH` call and
one `GLOBAL_QUOTE` call per retained match (at most five).  All provider
failures are swallowed (the helpers return `null`), so the branch always
answers 200. -/
def financeBranch (query : String) (o : Oracle) :
    ApiResponse × List ProviderCall :=
  if isMarketQuery query then
    let results :=
      match o.topGainersLosers with
      | none => []
      | some md =>
        (match md.top_gainers with
         | some gs => (gs.take 5).map gainerItem
         | none => [])
        ++ (match md.top_losers with
            | some ls => (ls.take 5).map loserItem
            | none => [])
    (financeResponse results, [.alphaTopGainers alphaVantageKey])
  else
    match o.symbolSearch with
    | none => (financeResponse [], [.alphaSymbolSearch query alphaVantageKey])
    | some sd =>
      match sd.bestMatches with
      | none => (financeResponse [], [.alphaSymbolSearch query alphaVantageKey])
      | some ms =>
        let top := ms.take 5
        let results := top.map (fun m => symbolItem m (o.quote m.symbol))
        (financeResponse results,
         .alphaSymbolSearch query alphaVantageKey
           :: top.map (fun m => .alphaQuote m.symbol alphaVantageKey))

/-- `baseParams` of the route (lines 362-369). -/
def baseParams (q serpApiKey : String) : SerpParams :=
  { engine := "google", q := some q, api_key := serpApiKey,
    location := some "United States", gl := "us", hl := "en",
    tbm := none, num := none, start := none, type := none, ll := none,
    departure_id := none, arrival_id := none, outbound_date := none,
    return_date := none, travel_class := none, adults := none,
    currency := none }

/-- The invalid-departure error message (lines 460-462). -/
def invalidDepartureMsg (input : String) : String :=
  "Invalid departure airport: \"" ++ input
    ++ "\". Please use a valid airport code (e.g., JFK) or city name (e.g., New York)."

/-- The invalid-arrival error message (lines 480-482). -/
def invalidArrivalMsg (input : String) : String :=
  "Invalid arrival airport: \"" ++ input
    ++ "\". Please use a valid airport code (e.g., LAX) or city name (e.g., Los Angeles)."

/-- Flights case of the parameter switch (lines 431-541): airport
resolution, date validation, passenger validation, then the
`google_flights` parameters.  An `.error` result is an early
`NextResponse.json` return (no provider call). -/
def flightsCase (req : Request) (today : Int) (base : SerpParams) :
    Except ApiResponse SerpParams :=
  let departureInput := jsOrStr req.departure_id ""
  let arrivalInput := jsOrStr req.arrival_id ""
  let outbound_date := jsOrStr req.outbound_date (getDateString today 7)
  let return_date := jsOrStr req.return_date (getDateString today 14)
  let type := jsOrStr req.flight_type "1"
  let travel_class := jsOrStr req.travel_class "1"
  let adults := jsOrStr req.adults "1"
  if departureInput = "" then
    .error (.err 400 "Departure airport is required for flight search.")
  else
    match resolveAirportInput departureInput with
    | none => .error (.err 400 (invalidDepartureMsg departureInput))
    | some departure_id =>
      if arrivalInput = "" then
        .error (.err 400 "Arrival airport is required for flight search.")
      else
        match resolveAirportInput arrivalInput with
        | none => .error (.err 400 (invalidArrivalMsg arrivalInput))
        | some arrival_id =>
          let outboundDate := parseDate outbound_date
          if jsLt outboundDate today then
            .error (.err 400 "Departure date cannot be in the past.")
          else if type = "1" && jsLe (parseDate return_date) outboundDate then
            .error (.err 400 "Return date must be after departure date.")
          else
            match parseIntJS adults with
            | none => .error (.err 400 "Number of adults must be between 1 and 9.")
            | some a =>
              if a < 1 || 9 < a then
                .error (.err 400 "Number of adults must be between 1 and 9.")
              else
                .ok { base with
                  engine := "google_flights"
                  q := none
                  location := none
                  departure_id := some departure_id
                  arrival_id := some arrival_id
                  outbound_date := some outbound_date
                  type := some type
                  travel_class := some travel_class
                  adults := some adults
                  currency := some "USD"
                  return_date := if type = "1" then some return_date else none }

/-- The parameter switch on the search type (lines 375-547).  Only the
flights case can return early. -/
def buildSerpParams (req : Request) (query searchType serpApiKey : String)
    (page : Option Int) (today : Int) : Except ApiResponse SerpParams :=
  let base := baseParams query serpApiKey
  let startIndex : Option Int := page.map (fun p => (p - 1) * 20)
  if searchType = "images" then
    .ok { base with
      tbm := some "isch"
      num := some 30
      start := if jsGt page 1 then startIndex else none }
  else if searchType = "videos" then
    .ok { base with
      tbm := some "vid"
      num := some 20
      start := if jsGt page 1 then startIndex else none }
  else if searchType = "news" then
    .ok { base with
      tbm := some "nws"
      num := some 20
      start := if jsGt page 1 then startIndex else none }
  else if searchType = "shopping" then
    .ok { base with
      tbm := some "shop"
      num := some 20
      start := if jsGt page 1 then startIndex else none }
  else if searchType = "maps" then
    let lat := jsOrStr req.lat "40.7455096"
    let lng := jsOrStr req.lng "-74.0083012"
    let zoom := jsOrStr req.zoom "14z"
    .ok { base with
      engine := "google_maps"
      type := some "search"
      ll := some ("@" ++ lat ++ "," ++ lng ++ "," ++ zoom)
      start := if jsGt page 1 then startIndex else none }
  else if searchType = "flights" then
    flightsCase req today base
  else
    .ok { base with
      num := some 20
      start := if jsGt page 1 then startIndex else none }

/-- Result selection of the response switch (lines 584-792): the results
array and the `totalResults` string per search type. -/
def serpResults (searchType : String) (data : SerpData) : List Item × String :=
  let infoTotal := data.search_information.bind SerpInfo.total_results
  let metaTotal := data.sm.bind SerpSM.total_results
  if searchType = "images" then
    let rs := data.images_results.map Item.ext
    (rs, jsOrStr infoTotal (jsOrStr metaTotal (toString rs.length)))
  else if searchType = "videos" then
    let rs := data.video_results.map Item.ext
    (rs, jsOrStr infoTotal (jsOrStr metaTotal (toString rs.length)))
  else if searchType = "news" then
    let rs := data.news_results.map Item.ext
    (rs, jsOrStr infoTotal (jsOrStr metaTotal (toString rs.length)))
  else if searchType = "shopping" then
    let rs := data.shopping_results.map Item.ext
    (rs, jsOrStr infoTotal (jsOrStr metaTotal (toString rs.length)))
  else if searchType = "maps" then
    let locals := data.local_results
    let withPlace :=
      match data.place_results with
      | some p => p :: locals
      | none => locals
    let rs := withPlace.map Item.ext
    (rs, jsOrStr infoTotal (jsOrStr metaTotal (toString rs.length)))
  else if searchType = "flights" then
    let rs := (data.best_flights ++ data.other_flights).map Item.ext
    (rs, toString rs.length)
  else
    let rs := data.organic_results.map Item.ext
    (rs, jsOrStr infoTotal (jsOrStr metaTotal (toString rs.length)))

/-- Successful SerpAPI response handling: timing extraction (lines
572-577), result selection, pagination math (lines 807-811) and the
response envelope (lines 813-829). -/
def serpSuccess (searchType : String) (page : Option Int) (data : SerpData) :
    ApiResponse :=
  let timeTaken :=
    match data.sm with
    | none => 0
    | some m =>
      jsOrRat m.time_taken_displayed
        (jsOrRat m.processed_time (jsOrRat m.total_time_taken 0))
  let rt := serpResults searchType data
  let n := totalResultsNum rt.2
  let totalPages := jsCeilDiv n 20
  let hasNextPage := jsLt page totalPages && jsLt page 10
  let hasPrevPage := jsGt page 1
  .ok { results := rt.1,
        search_metadata :=
          { total_results := rt.2,
            time_taken_displayed := timeTaken,
            search_type := searchType,
            current_page := page,
            total_pages := min totalPages 10,
            has_next_page := hasNextPage,
            has_prev_page := hasPrevPage,
            results_per_page := 20 },
        search_type := searchType }

/-- The route handler `GET` (lines 105-863): parameter extraction, the
required-query check, the books and finance early branches, the SerpAPI key
check, the parameter switch, the single SerpAPI call and the catch block.
Returns the response and the ordered provider-call trace. -/
def GET (req : Request) (env : Env) (today : Int) (o : Oracle) :
    ApiResponse × List ProviderCall :=
  let query := req.q
  let searchType := jsOrStr req.type "web"
  let page := parseIntJS (jsOrStr req.page "1")
  if jsFalsy query then (.err 400 "Query parameter is required", [])
  else
    let q := query.getD ""
    if searchType = "books" then booksBranch q page o
    else if searchType = "finance" then financeBranch q o
    else if jsFalsy env.SERPAPI_KEY then
      (.err 500 "SerpAPI key not configured", [])
    else
      let serpApiKey := env.SERPAPI_KEY.getD ""
      match buildSerpParams req q searchType serpApiKey page today with
      | .error resp => (resp, [])
      | .ok ps =>
        match o.serp with
        | .error f => (catchResponse f, [.serpapi ps])
        | .ok data => (serpSuccess searchType page data, [.serpapi ps])

/-- The retained symbol matches: `bestMatches.slice(0, 5)` when the symbol
search succeeded and carried the array, else nothing. -/
def financeTopMatches (o : Oracle) : List SymbolMatch :=
  ((o.symbolSearch.bind SymbolData.bestMatches).getD []).take 5

theorem financeBranch_shape (q : String) (o : Oracle) :
    ∃ rs, financeBranch q o =
      (financeResponse rs,
       if isMarketQuery q then [ProviderCall.alphaTopGainers alphaVantageKey]
       else ProviderCall.alphaSymbolSearch q alphaVantageKey
         :: (financeTopMatches o).map
              (fun m => ProviderCall.alphaQuote m.symbol alphaVantageKey)) := by
  unfold financeBranch financeTopMatches
  split
  · exact ⟨_, rfl⟩
  · cases hss : o.symbolSearch with
    | none => exact ⟨[], by simp [hss]⟩
    | some sd =>
      cases hbm : sd.bestMatches with
      | none => exact ⟨[], by simp [hss, hbm]⟩
      | some ms =>
        exact ⟨(ms.take 5).map (fun m => symbolItem m (o.quote m.symbol)),
          by simp [hss, hbm]⟩

theorem flightsCase_error_status (req : Request) (today : Int)
    (base : SerpParams) (r : ApiResponse)
    (h : flightsCase req today base = .error r) : ∃ m, r = .err 400 m := by
  simp only [flightsCase] at h
  repeat' split at h
  all_goals first
    | exact ⟨_, (Except.error.inj h).symm⟩
    | exact absurd h (by simp)

theorem buildSerpParams_error (req : Request) (query searchType serpApiKey : String)
    (page : Option Int) (today : Int) (r : ApiResponse)
    (h : buildSerpParams req query searchType serpApiKey page today = .error r) :
    ∃ m, r = .err 400 m := by
  simp only [buildSerpParams] at h
  repeat' split at h
  all_goals first
    | exact absurd h (by simp)
    | exact flightsCase_error_status _ _ _ _ h

theorem catchResponse_status (f : FailKind) :
    ∃ m, catchResponse f = .err (catchResponse f).statusCode m ∧
      ((catchResponse f).statusCode = 400 ∨ (catchResponse f).statusCode = 401 ∨
       (catchResponse f).statusCode = 408 ∨ (catchResponse f).statusCode = 429 ∨
       (catchResponse f).statusCode = 500) := by
  unfold catchResponse
  cases f with
  | axiosHttp s =>
    by_cases h1 : s = 401
    · simp [h1, ApiResponse.statusCode]
    · by_cases h2 : s = 429
      · simp [h1, h2, ApiResponse.statusCode]
      · by_cases h3 : s = 400
        · simp [h1, h2, h3, ApiResponse.statusCode]
        · simp [h1, h2, h3, ApiResponse.statusCode]
  | axiosTimeout => simp [ApiResponse.statusCode]
  | axiosOther => simp [ApiResponse.statusCode]
  | nonAxios => simp [ApiResponse.statusCode]

/-- The effective query string once the required-parameter check passed. -/
def reqQuery (req : Request) : String := req.q.getD ""

/-- The effective search type: `searchParams.get("type") || "web"`. -/
def reqType (req : Request) : String := jsOrStr req.type "web"

/-- The effective page number: `parseInt(searchParams.get("page") || "1")`. -/
def reqPage (req : Request) : Option Int := parseIntJS (jsOrStr req.page "1")

theorem GET_shape (req : Request) (env : Env) (today : Int) (o : Oracle) :
    (jsFalsy req.q = true ∧
       GET req env today o = (.err 400 "Query parameter is required", []))
    ∨ (jsFalsy req.q = false ∧ reqType req = "books" ∧
       GET req env today o = booksBranch (reqQuery req) (reqPage req) o)
    ∨ (jsFalsy req.q = false ∧ reqType req = "finance" ∧
       GET req env today o = financeBranch (reqQuery req) o)
    ∨ (jsFalsy req.q = false ∧ reqType req ≠ "books" ∧ reqType req ≠ "finance" ∧
       jsFalsy env.SERPAPI_KEY = true ∧
       GET req env today o = (.err 500 "SerpAPI key not configured", []))
    ∨ (jsFalsy req.q = false ∧ reqType req ≠ "books" ∧ reqType req ≠ "finance" ∧
       jsFalsy env.SERPAPI_KEY = false ∧
       ((∃ r, buildSerpParams req (reqQuery req) (reqType req)
            (env.SERPAPI_KEY.getD "") (reqPage req) today = .error r ∧
          GET req env today o = (r, []))
        ∨ (∃ ps, buildSerpParams req (reqQuery req) (reqType req)
             (env.SERPAPI_KEY.getD "") (reqPage req) today = .ok ps ∧
           ((∃ f, o.serp = .error f ∧
               GET req env today o = (catchResponse f, [.serpapi ps]))
            ∨ (∃ d, o.serp = .ok d ∧
               GET req env today o =
                 (serpSuccess (reqType req) (reqPage req) d, [.serpapi ps])))))) := by
  by_cases hq : jsFalsy req.q = true
  · exact Or.inl ⟨hq, by simp [GET, hq]⟩
  · by_cases hb : reqType req = "books"
    · refine Or.inr (Or.inl ⟨by simpa using hq, hb, ?_⟩)
      simp only [GET, reqType] at hb ⊢
      simp [hq, hb, reqQuery, reqPage]
    · by_cases hf : reqType req = "finance"
      · refine Or.inr (Or.inr (Or.inl ⟨by simpa using hq, hf, ?_⟩))
        simp only [GET, reqType] at hb hf ⊢
        simp [hq, hb, hf, reqQuery, reqPage]
      · by_cases hk : jsFalsy env.SERPAPI_KEY = true
        · refine Or.inr (Or.inr (Or.inr (Or.inl
            ⟨by simpa using hq, hb, hf, hk, ?_⟩)))
          simp only [GET, reqType] at hb hf ⊢
          simp [hq, hb, hf, hk]
        · refine Or.inr (Or.inr (Or.inr (Or.inr
            ⟨by simpa using hq, hb, hf, by simpa using hk, ?_⟩)))
          cases hbp : buildSerpParams req (reqQuery req) (reqType req)
              (env.SERPAPI_KEY.getD "") (reqPage req) today with
          | error r =>
            refine Or.inl ⟨r, rfl, ?_⟩
            simp only [GET, reqType, reqQuery, reqPage] at hb hf hbp ⊢
            simp [hq, hb, hf, hk, hbp]
          | ok ps =>
            refine Or.inr ⟨ps, rfl, ?_⟩
            cases hserp : o.serp with
            | error f =>
              refine Or.inl ⟨f, rfl, ?_⟩
              simp only [GET, reqType, reqQuery, reqPage] at hb hf hbp ⊢
              simp [hq, hb, hf, hk, hbp, hserp]
            | ok d =>
              refine Or.inr ⟨d, rfl, ?_⟩
              simp only [GET, reqType, reqQuery, reqPage] at hb hf hbp ⊢
              simp [hq, hb, hf, hk, hbp, hserp]

/-- A request with every query parameter absent (witness fixture). -/
def emptyRequest : Request :=
  { q := none, type := none, page := none, lat := none, lng := none,
    zoom := none, departure_id := none, arrival_id := none,
    outbound_date := none, return_date := none, flight_type := none,
    travel_class := none, adults := none }

/-- An oracle on which every provider call fails (witness fixture). -/
def oracleFail : Oracle :=
  { openLibrary := .error .axiosOther, topGainersLosers := none,
    symbolSearch := none, quote := fun _ => none, serp := .error .axiosOther }

/-- An environment with no SerpAPI key (witness fixture). -/
def envNone : Env := { SERPAPI_KEY := none }

/-- An environment with a SerpAPI key (witness fixture). -/
def envKey : Env := { SERPAPI_KEY := some "KEY" }

/-- C4: a request whose `q` parameter is missing or empty is answered with
HTTP 400 and an `error` field, and no external provider is contacted
(route lines 111-113: the check precedes every provider branch). -/
theorem query_required_rejected (req : Request) (env : Env) (today : Int)
    (o : Oracle) (h : jsFalsy req.q = true) :
    GET req env today o = (.err 400 "Query parameter is required", []) := by
  simp [GET, h]

/-- Witness for C4 at the all-absent request. -/
theorem query_required_rejected_witness :
    jsFalsy emptyRequest.q = true ∧
    GET emptyRequest envNone 0 oracleFail =
      (.err 400 "Query parameter is required", []) :=
  ⟨by decide, query_required_rejected emptyRequest envNone 0 oracleFail (by decide)⟩

/-- C9: every successful finance response carries `current_page = 1`,
`total_pages = 1`, `has_next_page = false`, `has_prev_page = false` and
`results_per_page` equal to the number of returned results, independently
of the requested page (route lines 339-352). -/
theorem finance_metadata_fixed (req : Request) (env : Env) (today : Int)
    (o : Oracle) (body : SuccessBody) (calls : List ProviderCall)
    (ht : reqType req = "finance")
    (h : GET req env today o = (.ok body, calls)) :
    body.search_metadata.current_page = some 1 ∧
    body.search_metadata.total_pages = 1 ∧
    body.search_metadata.has_next_page = false ∧
    body.search_metadata.has_prev_page = false ∧
    body.search_metadata.results_per_page = body.results.length := by
  rcases GET_shape req env today o with
    ⟨hq, hG⟩ | ⟨hq, hb, hG⟩ | ⟨hq, hf, hG⟩ | ⟨hq, hb, hf, hk, hG⟩ |
    ⟨hq, hb, hf, hk, hrest⟩
  · rw [hG] at h; exact absurd h (by simp)
  · rw [ht] at hb; exact absurd hb (by decide)
  · rw [hG] at h
    obtain ⟨rs, hfb⟩ := financeBranch_shape (reqQuery req) o
    rw [hfb] at h
    have h1 : financeResponse rs = .ok body := congrArg Prod.fst h
    simp only [financeResponse] at h1
    injection h1 with h1
    subst h1
    exact ⟨rfl, rfl, rfl, rfl, rfl⟩
  · rw [hG] at h; exact absurd h (by simp)
  · exact absurd ht hf

/-- The finance request used by the C9 witness. -/
def financeMarketReq : Request :=
  { emptyRequest with q := some "market", type := some "finance" }

/-- The body the C9 witness computes (market query, failing provider). -/
def financeEmptyBody : SuccessBody :=
  { results := [],
    search_metadata :=
      { total_results := "0", time_taken_displayed := mkRat 1 2,
        search_type := "finance", current_page := some 1, total_pages := 1,
        has_next_page := false, has_prev_page := false,
        results_per_page := 0 },
    search_type := "finance" }

/-- Witness for C9 at a concrete finance request. -/
theorem finance_metadata_fixed_witness :
    reqType financeMarketReq = "finance" ∧
    GET financeMarketReq envNone 0 oracleFail =
      (.ok financeEmptyBody, [.alphaTopGainers alphaVantageKey]) ∧
    (financeEmptyBody.search_metadata.current_page = some 1 ∧
     financeEmptyBody.search_metadata.total_pages = 1 ∧
     financeEmptyBody.search_metadata.has_next_page = false ∧
     financeEmptyBody.search_metadata.has_prev_page = false ∧
     financeEmptyBody.search_metadata.results_per_page =
       financeEmptyBody.results.length) :=
  ⟨by decide, by decide,
   finance_metadata_fixed financeMarketReq envNone 0 oracleFail
     financeEmptyBody [.alphaTopGainers alphaVantageKey] (by decide) (by decide)⟩

/-- C1: whenever the proxy answers successfully with a provider-reported
result count, the response metadata satisfies the pagination equations of
route lines 807-827 (SerpAPI-backed categories; the count is the cleaned
`parseInt` of the reported `total_results`) and lines 221-238 (books; the
count is Open Library's `num_found`): `total_pages` is the ceiling of the
count over 20 capped at 10, `has_next_page` holds exactly when the
requested page is below both the uncapped page count and 10,
`has_prev_page` exactly when the page exceeds 1, and `results_per_page`
is 20.  (The finance branch reports no provider count, so it is outside
the scope of this claim; see `finance_metadata_fixed`.) -/
theorem pagination_consistent (req : Request) (env : Env) (today : Int)
    (o : Oracle) (body : SuccessBody) (calls : List ProviderCall) (p : Int)
    (h : GET req env today o = (.ok body, calls))
    (hp : reqPage req = some p) :
    (reqType req ≠ "books" → reqType req ≠ "finance" →
      0 < totalResultsNum body.search_metadata.total_results →
      body.search_metadata.total_pages =
        min (jsCeilDiv (totalResultsNum body.search_metadata.total_results) 20) 10 ∧
      body.search_metadata.has_next_page =
        (decide (p < jsCeilDiv (totalResultsNum body.search_metadata.total_results) 20)
          && decide (p < 10)) ∧
      body.search_metadata.has_prev_page = decide (1 < p) ∧
      body.search_metadata.results_per_page = 20)
    ∧ (reqType req = "books" → ∀ ol, o.openLibrary = .ok ol →
      (0 : Int) < (ol.num_found.getD 0 : Nat) →
      body.search_metadata.total_pages =
        min (jsCeilDiv ((ol.num_found.getD 0 : Nat) : Int) 20) 10 ∧
      body.search_metadata.has_next_page =
        (decide (p < jsCeilDiv ((ol.num_found.getD 0 : Nat) : Int) 20)
          && decide (p < 10)) ∧
      body.search_metadata.has_prev_page = decide (1 < p) ∧
      body.search_metadata.results_per_page = 20) := by
  rcases GET_shape req env today o with
    ⟨hq, hG⟩ | ⟨hq, hb, hG⟩ | ⟨hq, hf, hG⟩ | ⟨hq, hb, hf, hk, hG⟩ |
    ⟨hq, hb, hf, hk, hrest⟩
  · rw [hG] at h; exact absurd h (by simp)
  · constructor
    · intro hb'; exact absurd hb hb'
    · intro _ ol hol _
      rw [hG] at h
      rw [hp] at h
      simp only [booksBranch, hol] at h
      have h1 := congrArg Prod.fst h
      simp only at h1
      injection h1 with h1
      subst h1
      simp [jsLt, jsGt]
  · constructor
    · intro _ hf'; exact absurd hf hf'
    · intro hb'; rw [hb'] at hf; exact absurd hf (by decide)
  · rw [hG] at h; exact absurd h (by simp)
  · rcases hrest with ⟨r, hbp, hG⟩ | ⟨ps, hbp, ⟨f, hserp, hG⟩ | ⟨d, hserp, hG⟩⟩
    · obtain ⟨m, hm⟩ := buildSerpParams_error _ _ _ _ _ _ _ hbp
      rw [hG, hm] at h
      exact absurd h (by simp)
    · obtain ⟨m, hcr, _⟩ := catchResponse_status f
      rw [hG, hcr] at h
      exact absurd h (by simp)
    · constructor
      · intro _ _ _
        rw [hG] at h
        rw [hp] at h
        have h1 := congrArg Prod.fst h
        simp only [serpSuccess] at h1
        injection h1 with h1
        subst h1
        simp [jsLt, jsGt]
      · intro hb'; exact absurd hb' hb

/-- Books request with page 2 (witness fixture). -/
def booksReqW : Request :=
  { emptyRequest with q := some "x", type := some "books", page := some "2" }

/-- Open Library payload with 45 hits (witness fixture). -/
def olDataW : OLData := { num_found := some 45, docs := [7] }

/-- Oracle answering the books request (witness fixture). -/
def oracleBooks : Oracle := { oracleFail with openLibrary := .ok olDataW }

/-- The response body of the books witness request. -/
def booksBodyW : SuccessBody :=
  { results := [.ext 7],
    search_metadata :=
      { total_results := "45", time_taken_displayed := mkRat 1 2,
        search_type := "books", current_page := some 2, total_pages := 3,
        has_next_page := true, has_prev_page := true,
        results_per_page := 20 },
    search_type := "books" }

/-- Witness for C1 at a concrete books request (45 hits, page 2). -/
theorem pagination_consistent_witness :
    GET booksReqW envNone 0 oracleBooks =
      (.ok booksBodyW, [.openLibrary (olParamsOf "x" (some 2))]) ∧
    reqPage booksReqW = some 2 ∧
    reqType booksReqW = "books" ∧
    oracleBooks.openLibrary = .ok olDataW ∧
    (0 : Int) < (olDataW.num_found.getD 0 : Nat) ∧
    (booksBodyW.search_metadata.total_pages =
       min (jsCeilDiv ((olDataW.num_found.getD 0 : Nat) : Int) 20) 10 ∧
     booksBodyW.search_metadata.has_next_page =
       (decide ((2 : Int) < jsCeilDiv ((olDataW.num_found.getD 0 : Nat) : Int) 20)
         && decide ((2 : Int) < 10)) ∧
     booksBodyW.search_metadata.has_prev_page = decide ((1 : Int) < 2) ∧
     booksBodyW.search_metadata.results_per_page = 20) :=
  ⟨by decide, by decide, by decide, rfl, by decide,
   (pagination_consistent booksReqW envNone 0 oracleBooks booksBodyW
      [.openLibrary (olParamsOf "x" (some 2))] 2
      (by decide) (by decide)).2 (by decide) olDataW rfl (by decide)⟩

theorem catchResponse_table :
    catchResponse (.axiosHttp 401) = .err 401 "Invalid SerpAPI key" ∧
    catchResponse (.axiosHttp 429) =
      .err 429 "API rate limit exceeded. Please try again later." ∧
    catchResponse (.axiosHttp 400) = .err 400 "Invalid search parameters" ∧
    catchResponse .axiosTimeout = .err 408 "Search request timed out" ∧
    (∀ f, f ≠ FailKind.axiosHttp 401 → f ≠ FailKind.axiosHttp 429 →
      f ≠ FailKind.axiosHttp 400 → f ≠ FailKind.axiosTimeout →
      (catchResponse f).statusCode = 500) := by
  refine ⟨by decide, by decide, by decide, by decide, ?_⟩
  intro f h1 h2 h3 h4
  cases f with
  | axiosHttp n =>
    have n1 : ¬ n = 401 := fun e => h1 (by rw [e])
    have n2 : ¬ n = 429 := fun e => h2 (by rw [e])
    have n3 : ¬ n = 400 := fun e => h3 (by rw [e])
    simp [catchResponse, ApiResponse.statusCode, n1, n2, n3]
  | axiosTimeout => exact absurd rfl h4
  | axiosOther => rfl
  | nonAxios => rfl

/-- C3: every failing proxy response carries an `error` field (every `err`
response does, by construction of the embedding) and a status in
{400, 401, 408, 429, 500}; when the failure came from the provider call
that was made, the status is the catch-block mapping of lines 843-861
(401 for provider 401, 429 for 429, 400 for 400, 408 for a timeout, 500
otherwise); and no retry happens: a failing request has issued at most one
provider call. -/
theorem error_status_mapping (req : Request) (env : Env) (today : Int)
    (o : Oracle) (s : Nat) (m : String) (calls : List ProviderCall)
    (h : GET req env today o = (.err s m, calls)) :
    (s = 400 ∨ s = 401 ∨ s = 408 ∨ s = 429 ∨ s = 500) ∧
    calls.length ≤ 1 ∧
    (∀ ps, ProviderCall.serpapi ps ∈ calls →
      ∃ f, o.serp = .error f ∧ ApiResponse.err s m = catchResponse f) ∧
    (∀ olp, ProviderCall.openLibrary olp ∈ calls →
      ∃ f, o.openLibrary = .error f ∧ ApiResponse.err s m = catchResponse f) ∧
    (catchResponse (.axiosHttp 401) = .err 401 "Invalid SerpAPI key" ∧
     catchResponse (.axiosHttp 429) =
       .err 429 "API rate limit exceeded. Please try again later." ∧
     catchResponse (.axiosHttp 400) = .err 400 "Invalid search parameters" ∧
     catchResponse .axiosTimeout = .err 408 "Search request timed out" ∧
     (∀ f, f ≠ FailKind.axiosHttp 401 → f ≠ FailKind.axiosHttp 429 →
       f ≠ FailKind.axiosHttp 400 → f ≠ FailKind.axiosTimeout →
       (catchResponse f).statusCode = 500)) := by
  rcases GET_shape req env today o with
    ⟨hq, hG⟩ | ⟨hq, hb, hG⟩ | ⟨hq, hf, hG⟩ | ⟨hq, hb, hf, hk, hG⟩ |
    ⟨hq, hb, hf, hk, hrest⟩
  · rw [hG, Prod.mk.injEq] at h
    obtain ⟨h1, h2⟩ := h
    injection h1 with hs hm
    subst hs
    subst h2
    exact ⟨Or.inl rfl, by simp, by simp, by simp, catchResponse_table⟩
  · rw [hG] at h
    cases hol : o.openLibrary with
    | ok ol =>
      simp only [booksBranch, hol] at h
      exact absurd (congrArg Prod.fst h) (by simp)
    | error f =>
      simp only [booksBranch, hol] at h
      rw [Prod.mk.injEq] at h
      obtain ⟨h1, h2⟩ := h
      obtain ⟨m', hcr, hset⟩ := catchResponse_status f
      refine ⟨?_, ?_, ?_, ?_, catchResponse_table⟩
      · have hs : (catchResponse f).statusCode = s := by
          have := (hcr.symm.trans h1)
          injection this with hs hm
        rw [← hs]; exact hset
      · rw [← h2]; simp
      · intro ps hps; rw [← h2] at hps; simp at hps
      · intro olp holp; exact ⟨f, rfl, h1.symm⟩
  · rw [hG] at h
    obtain ⟨rs, hfb⟩ := financeBranch_shape (reqQuery req) o
    rw [hfb] at h
    have h1 := congrArg Prod.fst h
    simp only [financeResponse] at h1
    exact absurd h1 (by simp)
  · rw [hG, Prod.mk.injEq] at h
    obtain ⟨h1, h2⟩ := h
    injection h1 with hs hm
    subst hs
    subst h2
    exact ⟨Or.inr (Or.inr (Or.inr (Or.inr rfl))), by simp, by simp, by simp,
      catchResponse_table⟩
  · rcases hrest with ⟨r, hbp, hG⟩ | ⟨ps, hbp, ⟨f, hserp, hG⟩ | ⟨d, hserp, hG⟩⟩
    · obtain ⟨m', hm⟩ := buildSerpParams_error _ _ _ _ _ _ _ hbp
      rw [hG, hm, Prod.mk.injEq] at h
      obtain ⟨h1, h2⟩ := h
      injection h1 with hs hmm
      subst hs
      subst h2
      exact ⟨Or.inl rfl, by simp, by simp, by simp, catchResponse_table⟩
    · rw [hG, Prod.mk.injEq] at h
      obtain ⟨h1, h2⟩ := h
      obtain ⟨m', hcr, hset⟩ := catchResponse_status f
      refine ⟨?_, ?_, ?_, ?_, catchResponse_table⟩
      · have hs : (catchResponse f).statusCode = s := by
          have := (hcr.symm.trans h1)
          injection this with hs hm
        rw [← hs]; exact hset
      · rw [← h2]; simp
      · exact fun ps' _ => ⟨f, hserp, h1.symm⟩
      · intro olp holp; rw [← h2] at holp; simp at holp
    · rw [hG] at h
      have h1 := congrArg Prod.fst h
      simp only [serpSuccess] at h1
      exact absurd h1 (by simp)

/-- Witness for C3 at the missing-query request. -/
theorem error_status_mapping_witness :
    GET emptyRequest envNone 0 oracleFail =
      (.err 400 "Query parameter is required", []) ∧
    ((400 = 400 ∨ 400 = 401 ∨ 400 = 408 ∨ 400 = 429 ∨ 400 = 500) ∧
     ([] : List ProviderCall).length ≤ 1 ∧
     (∀ ps, ProviderCall.serpapi ps ∈ ([] : List ProviderCall) →
       ∃ f, oracleFail.serp = .error f ∧
         ApiResponse.err 400 "Query parameter is required" = catchResponse f) ∧
     (∀ olp, ProviderCall.openLibrary olp ∈ ([] : List ProviderCall) →
       ∃ f, oracleFail.openLibrary = .error f ∧
         ApiResponse.err 400 "Query parameter is required" = catchResponse f) ∧
     (catchResponse (.axiosHttp 401) = .err 401 "Invalid SerpAPI key" ∧
      catchResponse (.axiosHttp 429) =
        .err 429 "API rate limit exceeded. Please try again later." ∧
      catchResponse (.axiosHttp 400) = .err 400 "Invalid search parameters" ∧
      catchResponse .axiosTimeout = .err 408 "Search request timed out" ∧
      (∀ f, f ≠ FailKind.axiosHttp 401 → f ≠ FailKind.axiosHttp 429 →
        f ≠ FailKind.axiosHttp 400 → f ≠ FailKind.axiosTimeout →
        (catchResponse f).statusCode = 500))) :=
  ⟨by decide,
   error_status_mapping emptyRequest envNone 0 oracleFail 400
     "Query parameter is required" [] (by decide)⟩

theorem booksBranch_calls (q : String) (page : Option Int) (o : Oracle) :
    (booksBranch q page o).2 = [.openLibrary (olParamsOf q page)] := by
  cases hol : o.openLibrary <;> simp [booksBranch, hol]

theorem financeBranch_providers (q : String) (o : Oracle) :
    ∀ c ∈ (financeBranch q o).2, providerOf c = ProviderName.alphaVantage := by
  obtain ⟨rs, hfb⟩ := financeBranch_shape q o
  rw [hfb]
  by_cases hm : isMarketQuery q
  · simp [hm, providerOf]
  · simp only [hm, if_neg, Bool.false_eq_true, not_false_eq_true]
    intro c hc
    rcases List.mem_cons.mp hc with rfl | hc2
    · rfl
    · obtain ⟨mt, _, rfl⟩ := List.mem_map.mp hc2
      rfl

theorem financeBranch_calls_length (q : String) (o : Oracle) :
    (financeBranch q o).2.length =
      1 + (if isMarketQuery q then 0 else (financeTopMatches o).length) := by
  obtain ⟨rs, hfb⟩ := financeBranch_shape q o
  rw [hfb]
  by_cases hm : isMarketQuery q <;> simp [hm, Nat.add_comm]

/-- The finance symbol request used by C2 (non-market query with one
provider match). -/
def financeSymbolReq : Request :=
  { emptyRequest with q := some "ibm", type := some "finance" }

/-- The single best match of the C2 fixture oracle. -/
def ibmMatch : SymbolMatch :=
  { symbol := "IBM", name := "IBM Corp", type := "Equity", region := "US" }

/-- A symbol-search oracle returning one best match (fixture). -/
def oracleSymbol : Oracle :=
  { oracleFail with symbolSearch := some { bestMatches := some [ibmMatch] } }

/-- Counterexample to C2: a finance request with one symbol match issues
two provider GETs (`SYMBOL_SEARCH` then `GLOBAL_QUOTE`), not exactly one
(route lines 288-336). -/
theorem single_provider_call_counterexample :
    (GET financeSymbolReq envNone 0 oracleSymbol).2 =
      [.alphaSymbolSearch "ibm" alphaVantageKey,
       .alphaQuote "IBM" alphaVantageKey] ∧
    (GET financeSymbolReq envNone 0 oracleSymbol).2.length ≠ 1 := by
  exact ⟨by decide, by decide⟩

/-- C2 amended: every request talks to at most one provider (all calls of
one request share a provider); a non-finance request issues at most one
provider GET; a finance request with a query issues one GET for market
queries and one symbol-search GET plus one quote GET per retained match
(at most five) otherwise; a request rejected before any provider branch
issues none. -/
theorem provider_calls_amended (req : Request) (env : Env) (today : Int)
    (o : Oracle) :
    (∀ c1 ∈ (GET req env today o).2, ∀ c2 ∈ (GET req env today o).2,
       providerOf c1 = providerOf c2) ∧
    (reqType req ≠ "finance" → (GET req env today o).2.length ≤ 1) ∧
    (reqType req = "finance" → jsFalsy req.q = false →
       (GET req env today o).2.length =
         1 + (if isMarketQuery (reqQuery req) then 0
              else (financeTopMatches o).length)) ∧
    (jsFalsy req.q = true → (GET req env today o).2 = []) := by
  rcases GET_shape req env today o with
    ⟨hq, hG⟩ | ⟨hq, hb, hG⟩ | ⟨hq, hf, hG⟩ | ⟨hq, hb, hf, hk, hG⟩ |
    ⟨hq, hb, hf, hk, hrest⟩
  · refine ⟨by simp [hG], by simp [hG], ?_, by simp [hG]⟩
    intro _ hq'
    rw [hq] at hq'
    simp at hq'
  · refine ⟨?_, ?_, ?_, ?_⟩
    · simp only [hG, booksBranch_calls]
      intro c1 h1 c2 h2
      simp at h1 h2
      rw [h1, h2]
    · intro _; simp [hG, booksBranch_calls]
    · intro hfin; rw [hb] at hfin; exact absurd hfin (by decide)
    · intro hq'; rw [hq] at hq'; simp at hq'
  · refine ⟨?_, ?_, ?_, ?_⟩
    · simp only [hG]
      exact fun c1 h1 c2 h2 =>
        (financeBranch_providers _ o c1 h1).trans
          (financeBranch_providers _ o c2 h2).symm
    · intro hne; exact absurd hf hne
    · intro _ _; simp only [hG]; exact financeBranch_calls_length _ o
    · intro hq'; rw [hq] at hq'; simp at hq'
  · refine ⟨by simp [hG], by simp [hG], ?_, ?_⟩
    · intro hfin; exact absurd hfin hf
    · intro hq'; rw [hq] at hq'; simp at hq'
  · rcases hrest with ⟨r, hbp, hG⟩ | ⟨ps, hbp, ⟨f, hserp, hG⟩ | ⟨d, hserp, hG⟩⟩
    · refine ⟨by simp [hG], by simp [hG], ?_, ?_⟩
      · intro hfin; exact absurd hfin hf
      · intro hq'; rw [hq] at hq'; simp at hq'
    · refine ⟨?_, by simp [hG], ?_, ?_⟩
      · simp only [hG]
        intro c1 h1 c2 h2
        simp at h1 h2
        rw [h1, h2]
      · intro hfin; exact absurd hfin hf
      · intro hq'; rw [hq] at hq'; simp at hq'
    · refine ⟨?_, by simp [hG], ?_, ?_⟩
      · simp only [hG]
        intro c1 h1 c2 h2
        simp at h1 h2
        rw [h1, h2]
      · intro hfin; exact absurd hfin hf
      · intro hq'; rw [hq] at hq'; simp at hq'

/-- Witness for C2 amended at the finance symbol request (two calls: one
plus the single retained match). -/
theorem provider_calls_amended_witness :
    reqType financeSymbolReq = "finance" ∧
    jsFalsy financeSymbolReq.q = false ∧
    (GET financeSymbolReq envNone 0 oracleSymbol).2.length =
      1 + (if isMarketQuery (reqQuery financeSymbolReq) then 0
           else (financeTopMatches oracleSymbol).length) :=
  ⟨by decide, by decide,
   (provider_calls_amended financeSymbolReq envNone 0 oracleSymbol).2.2.1
     (by decide) (by decide)⟩

theorem flightsCase_api_key (req : Request) (today : Int) (base : SerpParams)
    (ps : SerpParams) (h : flightsCase req today base = .ok ps) :
    ps.api_key = base.api_key := by
  simp only [flightsCase] at h
  repeat' split at h
  all_goals first
    | (injection h with h2; subst h2; rfl)
    | exact absurd h (by simp)

theorem buildSerpParams_api_key (req : Request)
    (query searchType serpApiKey : String) (page : Option Int) (today : Int)
    (ps : SerpParams)
    (h : buildSerpParams req query searchType serpApiKey page today = .ok ps) :
    ps.api_key = serpApiKey := by
  simp only [buildSerpParams] at h
  repeat' split at h
  all_goals first
    | (injection h with h2; subst h2; rfl)
    | exact flightsCase_api_key _ _ _ _ h

theorem financeBranch_keys (q : String) (o : Oracle) :
    ∀ c ∈ (financeBranch q o).2, callApiKey c = some alphaVantageKey := by
  obtain ⟨rs, hfb⟩ := financeBranch_shape q o
  rw [hfb]
  by_cases hm : isMarketQuery q
  · simp [hm, callApiKey]
  · simp only [hm, if_neg, Bool.false_eq_true, not_false_eq_true]
    intro c hc
    rcases List.mem_cons.mp hc with rfl | hc2
    · rfl
    · obtain ⟨mt, _, rfl⟩ := List.mem_map.mp hc2
      rfl

/-- Counterexample to C7: with no key configured in the environment, a
books request is not answered 500 — it still contacts its provider (which
takes no key), and the finance branch carries a hardcoded key rather than
one from the environment (route lines 120-242, 246). -/
theorem api_key_env_counterexample :
    envNone.SERPAPI_KEY = none ∧
    GET booksReqW envNone 0 oracleBooks =
      (.ok booksBodyW, [.openLibrary (olParamsOf "x" (some 2))]) ∧
    (ApiResponse.ok booksBodyW).statusCode ≠ 500 ∧
    [ProviderCall.openLibrary (olParamsOf "x" (some 2))] ≠ ([] : List ProviderCall) ∧
    callApiKey (ProviderCall.alphaTopGainers alphaVantageKey) =
      some "EMMEZJF2DJ08Y82M" :=
  ⟨rfl, by decide, by decide, by decide, by decide⟩

/-- C7 amended: only the SerpAPI-backed categories (web, images, videos,
news, shopping, maps, flights) take their key from the process
environment, failing with HTTP 500 and no provider call when it is not
configured, and passing it on the call when it is; books contacts Open
Library with no API key at all, and finance uses a compiled-in Alpha
Vantage key rather than the environment. -/
theorem api_key_env_amended (req : Request) (env : Env) (today : Int)
    (o : Oracle) :
    (reqType req ≠ "books" → reqType req ≠ "finance" → jsFalsy req.q = false →
      jsFalsy env.SERPAPI_KEY = true →
      GET req env today o = (.err 500 "SerpAPI key not configured", [])) ∧
    (∀ k, env.SERPAPI_KEY = some k → ¬ k = "" →
      ∀ ps, ProviderCall.serpapi ps ∈ (GET req env today o).2 →
        ps.api_key = k) ∧
    (reqType req = "books" → jsFalsy req.q = false →
      (GET req env today o).2 =
        [.openLibrary (olParamsOf (reqQuery req) (reqPage req))] ∧
      callApiKey (ProviderCall.openLibrary
        (olParamsOf (reqQuery req) (reqPage req))) = none) ∧
    (reqType req = "finance" →
      ∀ c ∈ (GET req env today o).2, callApiKey c = some alphaVantageKey) := by
  rcases GET_shape req env today o with
    ⟨hq, hG⟩ | ⟨hq, hb, hG⟩ | ⟨hq, hf, hG⟩ | ⟨hq, hb, hf, hk, hG⟩ |
    ⟨hq, hb, hf, hk, hrest⟩
  · refine ⟨?_, ?_, ?_, ?_⟩
    · intro _ _ hq' _; rw [hq] at hq'; simp at hq'
    · intro k hk hke ps hmem; simp [hG] at hmem
    · intro _ hq'; rw [hq] at hq'; simp at hq'
    · intro _ c hc; simp [hG] at hc
  · refine ⟨?_, ?_, ?_, ?_⟩
    · intro hnb; exact absurd hb hnb
    · intro k hk hke ps hmem
      rw [hG, booksBranch_calls] at hmem
      simp at hmem
    · intro _ _
      exact ⟨by rw [hG, booksBranch_calls], rfl⟩
    · intro hfin; rw [hb] at hfin; exact absurd hfin (by decide)
  · refine ⟨?_, ?_, ?_, ?_⟩
    · intro _ hnf; exact absurd hf hnf
    · intro k hk hke ps hmem
      rw [hG] at hmem
      have := financeBranch_providers (reqQuery req) o _ hmem
      simp [providerOf] at this
    · intro hbk; rw [hf] at hbk; exact absurd hbk (by decide)
    · intro _ c hc
      rw [hG] at hc
      exact financeBranch_keys (reqQuery req) o c hc
  · refine ⟨?_, ?_, ?_, ?_⟩
    · intro _ _ _ _; exact hG
    · intro k hk hke ps hmem; simp [hG] at hmem
    · intro hbk; exact absurd hbk hb
    · intro hfin; exact absurd hfin hf
  · rcases hrest with ⟨r, hbp, hG⟩ | ⟨ps, hbp, ⟨f, hserp, hG⟩ | ⟨d, hserp, hG⟩⟩
    · refine ⟨?_, ?_, ?_, ?_⟩
      · intro _ _ _ hk'; rw [hk] at hk'; simp at hk'
      · intro k hk' hke ps' hmem; simp [hG] at hmem
      · intro hbk; exact absurd hbk hb
      · intro hfin; exact absurd hfin hf
    · refine ⟨?_, ?_, ?_, ?_⟩
      · intro _ _ _ hk'; rw [hk] at hk'; simp at hk'
      · intro k hk' hke ps' hmem
        rw [hG] at hmem
        simp at hmem
        rw [hmem]
        have := buildSerpParams_api_key _ _ _ _ _ _ _ hbp
        rw [this, hk']
        rfl
      · intro hbk; exact absurd hbk hb
      · intro hfin; exact absurd hfin hf
    · refine ⟨?_, ?_, ?_, ?_⟩
      · intro _ _ _ hk'; rw [hk] at hk'; simp at hk'
      · intro k hk' hke ps' hmem
        rw [hG] at hmem
        simp at hmem
        rw [hmem]
        have := buildSerpParams_api_key _ _ _ _ _ _ _ hbp
        rw [this, hk']
        rfl
      · intro hbk; exact absurd hbk hb
      · intro hfin; exact absurd hfin hf

/-- Witness for C7 amended: a web request with no configured key is
answered 500 without any provider call, and a books request is traced to
a keyless Open Library call. -/
theorem api_key_env_amended_witness :
    reqType { emptyRequest with q := some "x" } ≠ "books" ∧
    reqType { emptyRequest with q := some "x" } ≠ "finance" ∧
    jsFalsy ({ emptyRequest with q := some "x" } : Request).q = false ∧
    jsFalsy envNone.SERPAPI_KEY = true ∧
    GET { emptyRequest with q := some "x" } envNone 0 oracleFail =
      (.err 500 "SerpAPI key not configured", []) ∧
    reqType booksReqW = "books" ∧
    (GET booksReqW envNone 0 oracleBooks).2 =
      [.openLibrary (olParamsOf (reqQuery booksReqW) (reqPage booksReqW))] :=
  ⟨by decide, by decide, by decide, by decide,
   (api_key_env_amended { emptyRequest with q := some "x" } envNone 0
      oracleFail).1 (by decide) (by decide) (by decide) (by decide),
   by decide,
   ((api_key_env_amended booksReqW envNone 0 oracleBooks).2.2.1
      (by decide) (by decide)).1⟩

/-- The finance request of the C8 counterexample: page 2 requested. -/
def financePage2Req : Request :=
  { emptyRequest with
    q := some "market"
    type := some "finance"
    page := some "2" }

/-- Counterexample to C8: a successful finance request with `page=2` is
answered with `current_page = 1`, not the requested page (route line 345
hardcodes it). -/
theorem response_shape_counterexample :
    GET financePage2Req envNone 0 oracleFail =
      (.ok financeEmptyBody, [.alphaTopGainers alphaVantageKey]) ∧
    reqPage financePage2Req = some 2 ∧
    financeEmptyBody.search_metadata.current_page ≠ some 2 :=
  ⟨by decide, by decide, by decide⟩

/-- C8 amended: every successful response is the three-field object
`{results, search_metadata, search_type}` with the eight metadata fields
(this shape is carried by the `SuccessBody` and `SearchMetadata` record
types of the embedding), `search_type` (in both places) equals the
requested `type` parameter defaulting to `web`, and `current_page` equals
the requested `page` parameter defaulting to 1 — except in the finance
branch, where `current_page` is always 1. -/
theorem response_shape_amended (req : Request) (env : Env) (today : Int)
    (o : Oracle) (body : SuccessBody) (calls : List ProviderCall)
    (h : GET req env today o = (.ok body, calls)) :
    body.search_type = reqType req ∧
    body.search_metadata.search_type = reqType req ∧
    (reqType req ≠ "finance" →
      body.search_metadata.current_page = reqPage req) ∧
    (reqType req = "finance" →
      body.search_metadata.current_page = some 1) := by
  rcases GET_shape req env today o with
    ⟨hq, hG⟩ | ⟨hq, hb, hG⟩ | ⟨hq, hf, hG⟩ | ⟨hq, hb, hf, hk, hG⟩ |
    ⟨hq, hb, hf, hk, hrest⟩
  · rw [hG] at h; exact absurd h (by simp)
  · rw [hG] at h
    cases hol : o.openLibrary with
    | error f =>
      simp only [booksBranch, hol] at h
      obtain ⟨m', hcr, _⟩ := catchResponse_status f
      rw [hcr] at h
      exact absurd (congrArg Prod.fst h) (by simp)
    | ok ol =>
      simp only [booksBranch, hol] at h
      have h1 := congrArg Prod.fst h
      simp only at h1
      injection h1 with h1
      subst h1
      refine ⟨hb.symm, hb.symm, fun _ => rfl, fun hfin => ?_⟩
      rw [hb] at hfin
      exact absurd hfin (by decide)
  · rw [hG] at h
    obtain ⟨rs, hfb⟩ := financeBranch_shape (reqQuery req) o
    rw [hfb] at h
    have h1 := congrArg Prod.fst h
    simp only [financeResponse] at h1
    injection h1 with h1
    subst h1
    exact ⟨hf.symm, hf.symm, fun hne => absurd hf hne, fun _ => rfl⟩
  · rw [hG] at h; exact absurd h (by simp)
  · rcases hrest with ⟨r, hbp, hG⟩ | ⟨ps, hbp, ⟨f, hserp, hG⟩ | ⟨d, hserp, hG⟩⟩
    · obtain ⟨m', hm⟩ := buildSerpParams_error _ _ _ _ _ _ _ hbp
      rw [hG, hm] at h
      exact absurd h (by simp)
    · obtain ⟨m', hcr, _⟩ := catchResponse_status f
      rw [hG, hcr] at h
      exact absurd h (by simp)
    · rw [hG] at h
      have h1 := congrArg Prod.fst h
      simp only [serpSuccess] at h1
      injection h1 with h1
      subst h1
      exact ⟨rfl, rfl, fun _ => rfl, fun hfin => absurd hfin hf⟩

/-- Witness for C8 amended at the books request. -/
theorem response_shape_amended_witness :
    GET booksReqW envNone 0 oracleBooks =
      (.ok booksBodyW, [.openLibrary (olParamsOf "x" (some 2))]) ∧
    booksBodyW.search_type = reqType booksReqW ∧
    booksBodyW.search_metadata.search_type = reqType booksReqW ∧
    booksBodyW.search_metadata.current_page = reqPage booksReqW :=
  ⟨by decide,
   (response_shape_amended booksReqW envNone 0 oracleBooks booksBodyW
      [.openLibrary (olParamsOf "x" (some 2))] (by decide)).1,
   (response_shape_amended booksReqW envNone 0 oracleBooks booksBodyW
      [.openLibrary (olParamsOf "x" (some 2))] (by decide)).2.1,
   (response_shape_amended booksReqW envNone 0 oracleBooks booksBodyW
      [.openLibrary (olParamsOf "x" (some 2))] (by decide)).2.2.1 (by decide)⟩

theorem buildSerpParams_flights (req : Request) (query serpApiKey : String)
    (page : Option Int) (today : Int) :
    buildSerpParams req query "flights" serpApiKey page today =
      flightsCase req today (baseParams query serpApiKey) := by
  simp [buildSerpParams]

theorem flightsCase_roundtrip_reject (req : Request) (today : Int)
    (base : SerpParams)
    (htype : jsOrStr req.flight_type "1" = "1") (r ob : Int)
    (hr : parseDate (jsOrStr req.return_date (getDateString today 14)) = some r)
    (hob : parseDate (jsOrStr req.outbound_date (getDateString today 7)) = some ob)
    (hle : r ≤ ob) :
    ∀ ps, flightsCase req today base ≠ .ok ps := by
  intro ps h
  simp only [flightsCase] at h
  repeat' split at h
  all_goals simp_all [jsLe]

theorem flightsCase_adults_reject (req : Request) (today : Int)
    (base : SerpParams)
    (hbad : parseIntJS (jsOrStr req.adults "1") = none ∨
      ∃ a, parseIntJS (jsOrStr req.adults "1") = some a ∧ (a < 1 ∨ 9 < a)) :
    ∀ ps, flightsCase req today base ≠ .ok ps := by
  intro ps h
  simp only [flightsCase] at h
  repeat' split at h
  all_goals
    rcases hbad with h1 | ⟨a, ha, h2⟩ <;> simp_all <;> omega

theorem flightsCase_airport_reject (req : Request) (today : Int)
    (base : SerpParams)
    (hbad : jsOrStr req.departure_id "" = "" ∨
      resolveAirportInput (jsOrStr req.departure_id "") = none ∨
      jsOrStr req.arrival_id "" = "" ∨
      resolveAirportInput (jsOrStr req.arrival_id "") = none) :
    ∀ ps, flightsCase req today base ≠ .ok ps := by
  intro ps h
  simp only [flightsCase] at h
  repeat' split at h
  all_goals
    rcases hbad with h1 | h1 | h1 | h1 <;> simp_all

theorem flightsCase_ok_airports (req : Request) (today : Int)
    (base : SerpParams) (ps : SerpParams)
    (h : flightsCase req today base = .ok ps) :
    ps.departure_id = resolveAirportInput (jsOrStr req.departure_id "") ∧
    ps.arrival_id = resolveAirportInput (jsOrStr req.arrival_id "") := by
  simp only [flightsCase] at h
  repeat' split at h
  all_goals first
    | (injection h with h2; subst h2; refine ⟨?_, ?_⟩ <;> simp_all)
    | exact absurd h (by simp)

theorem GET_flights_reject (req : Request) (env : Env) (today : Int)
    (o : Oracle)
    (hq : jsFalsy req.q = false) (hk : jsFalsy env.SERPAPI_KEY = false)
    (ht : reqType req = "flights")
    (hrej : ∀ ps, flightsCase req today
      (baseParams (reqQuery req) (env.SERPAPI_KEY.getD "")) ≠ .ok ps) :
    ∃ m, GET req env today o = (.err 400 m, []) := by
  rcases GET_shape req env today o with
    ⟨hq', hG⟩ | ⟨hq', hb, hG⟩ | ⟨hq', hf, hG⟩ | ⟨hq', hb, hf, hk', hG⟩ |
    ⟨hq', hb, hf, hk', hrest⟩
  · rw [hq] at hq'; exact absurd hq' (by simp)
  · rw [ht] at hb; exact absurd hb (by decide)
  · rw [ht] at hf; exact absurd hf (by decide)
  · rw [hk] at hk'; exact absurd hk' (by simp)
  · rcases hrest with ⟨r, hbp, hG⟩ | ⟨ps, hbp, _⟩
    · obtain ⟨m, hm⟩ := buildSerpParams_error _ _ _ _ _ _ _ hbp
      exact ⟨m, by rw [hG, hm]⟩
    · rw [ht, buildSerpParams_flights] at hbp
      exact absurd hbp (hrej ps)

theorem GET_flights_called (req : Request) (env : Env) (today : Int)
    (o : Oracle)
    (hq : jsFalsy req.q = false) (hk : jsFalsy env.SERPAPI_KEY = false)
    (ht : reqType req = "flights") (ps : SerpParams)
    (hok : flightsCase req today
      (baseParams (reqQuery req) (env.SERPAPI_KEY.getD "")) = .ok ps) :
    (GET req env today o).2 = [.serpapi ps] := by
  rcases GET_shape req env today o with
    ⟨hq', hG⟩ | ⟨hq', hb, hG⟩ | ⟨hq', hf, hG⟩ | ⟨hq', hb, hf, hk', hG⟩ |
    ⟨hq', hb, hf, hk', hrest⟩
  · rw [hq] at hq'; exact absurd hq' (by simp)
  · rw [ht] at hb; exact absurd hb (by decide)
  · rw [ht] at hf; exact absurd hf (by decide)
  · rw [hk] at hk'; exact absurd hk' (by simp)
  · rcases hrest with ⟨r, hbp, hG⟩ | ⟨ps', hbp, ⟨f, hserp, hG⟩ | ⟨d, hserp, hG⟩⟩
    · rw [ht, buildSerpParams_flights, hok] at hbp
      exact absurd hbp (by simp)
    · rw [ht, buildSerpParams_flights, hok] at hbp
      injection hbp with hbp
      rw [hG, hbp]
    · rw [ht, buildSerpParams_flights, hok] at hbp
      injection hbp with hbp
      rw [hG, hbp]

theorem flightsCase_oneway_ok (req : Request) (today : Int)
    (base : SerpParams) (dep arr : String) (a : Int)
    (hd : jsOrStr req.departure_id "" ≠ "")
    (hdep : resolveAirportInput (jsOrStr req.departure_id "") = some dep)
    (ha : jsOrStr req.arrival_id "" ≠ "")
    (harr : resolveAirportInput (jsOrStr req.arrival_id "") = some arr)
    (hpast : jsLt (parseDate (jsOrStr req.outbound_date (getDateString today 7)))
      today = false)
    (htype : jsOrStr req.flight_type "1" ≠ "1")
    (hadult : parseIntJS (jsOrStr req.adults "1") = some a)
    (h1 : 1 ≤ a) (h9 : a ≤ 9) :
    ∃ ps, flightsCase req today base = .ok ps := by
  cases hfc : flightsCase req today base with
  | ok ps => exact ⟨ps, rfl⟩
  | error r =>
    exfalso
    have ha1 : ¬ (a < 1) := by omega
    have ha9 : ¬ (9 < a) := by omega
    simp only [flightsCase, hdep, harr, hadult] at hfc
    simp [hd, ha, hpast, htype, ha1, ha9] at hfc

/-- C5: a flights request whose effective flight type is round trip ("1",
the default) and whose parsed return date is at or before the parsed
outbound date is rejected with HTTP 400 and no provider call (route lines
502-509); a one-way request is not subject to the check: when everything
else validates it proceeds to the single SerpAPI call whatever the date
order.  (The request must carry a query and the key must be configured,
otherwise those earlier checks answer first.) -/
theorem round_trip_date_order (req : Request) (env : Env) (today : Int)
    (o : Oracle)
    (hq : jsFalsy req.q = false) (hk : jsFalsy env.SERPAPI_KEY = false)
    (ht : reqType req = "flights") :
    (∀ r ob, jsOrStr req.flight_type "1" = "1" →
      parseDate (jsOrStr req.return_date (getDateString today 14)) = some r →
      parseDate (jsOrStr req.outbound_date (getDateString today 7)) = some ob →
      r ≤ ob →
      ∃ m, GET req env today o = (.err 400 m, [])) ∧
    (∀ dep arr a, jsOrStr req.flight_type "1" ≠ "1" →
      jsOrStr req.departure_id "" ≠ "" →
      resolveAirportInput (jsOrStr req.departure_id "") = some dep →
      jsOrStr req.arrival_id "" ≠ "" →
      resolveAirportInput (jsOrStr req.arrival_id "") = some arr →
      jsLt (parseDate (jsOrStr req.outbound_date (getDateString today 7)))
        today = false →
      parseIntJS (jsOrStr req.adults "1") = some a → 1 ≤ a → a ≤ 9 →
      ∃ ps, (GET req env today o).2 = [ProviderCall.serpapi ps]) := by
  constructor
  · intro r ob htype hr hob hle
    exact GET_flights_reject req env today o hq hk ht
      (flightsCase_roundtrip_reject req today _ htype r ob hr hob hle)
  · intro dep arr a htype hd hdep ha harr hpast hadult h1 h9
    obtain ⟨ps, hps⟩ := flightsCase_oneway_ok req today
      (baseParams (reqQuery req) (env.SERPAPI_KEY.getD "")) dep arr a
      hd hdep ha harr hpast htype hadult h1 h9
    exact ⟨ps, GET_flights_called req env today o hq hk ht ps hps⟩

/-- A round-trip flights request with the return date before the outbound
date (witness fixture; day 20737 is 2026-10-11). -/
def flightsRTReq : Request :=
  { emptyRequest with
    q := some "x"
    type := some "flights"
    departure_id := some "JFK"
    arrival_id := some "LAX"
    outbound_date := some "2026-11-01"
    return_date := some "2026-10-20" }

/-- Witness for C5 at the concrete out-of-order round trip. -/
theorem round_trip_date_order_witness :
    jsFalsy flightsRTReq.q = false ∧
    jsFalsy envKey.SERPAPI_KEY = false ∧
    reqType flightsRTReq = "flights" ∧
    jsOrStr flightsRTReq.flight_type "1" = "1" ∧
    parseDate (jsOrStr flightsRTReq.return_date (getDateString 20737 14)) =
      some 20746 ∧
    parseDate (jsOrStr flightsRTReq.outbound_date (getDateString 20737 7)) =
      some 20758 ∧
    (∃ m, GET flightsRTReq envKey 20737 oracleFail = (.err 400 m, [])) :=
  ⟨by decide, by decide, by decide, by decide, by decide, by decide,
   (round_trip_date_order flightsRTReq envKey 20737 oracleFail
      (by decide) (by decide) (by decide)).1 20746 20758
      (by decide) (by decide) (by decide) (by decide)⟩

/-- C10: the `adults` flights parameter (defaulting to "1") must parse to
an integer between 1 and 9 inclusive; a value that does not parse or is
out of range is rejected with HTTP 400 before any provider call (route
lines 512-517; earlier flight validations also answer 400 without a
call). -/
theorem adults_range_rejected (req : Request) (env : Env) (today : Int)
    (o : Oracle)
    (hq : jsFalsy req.q = false) (hk : jsFalsy env.SERPAPI_KEY = false)
    (ht : reqType req = "flights")
    (hbad : parseIntJS (jsOrStr req.adults "1") = none ∨
      ∃ a, parseIntJS (jsOrStr req.adults "1") = some a ∧ (a < 1 ∨ 9 < a)) :
    ∃ m, GET req env today o = (.err 400 m, []) :=
  GET_flights_reject req env today o hq hk ht
    (flightsCase_adults_reject req today _ hbad)

/-- A flights request with 12 adults (witness fixture). -/
def flightsAdultsReq : Request :=
  { emptyRequest with
    q := some "x"
    type := some "flights"
    departure_id := some "JFK"
    arrival_id := some "LAX"
    outbound_date := some "2026-11-01"
    return_date := some "2026-11-05"
    adults := some "12" }

/-- Witness for C10 at the concrete 12-adult request. -/
theorem adults_range_rejected_witness :
    jsFalsy flightsAdultsReq.q = false ∧
    jsFalsy envKey.SERPAPI_KEY = false ∧
    reqType flightsAdultsReq = "flights" ∧
    parseIntJS (jsOrStr flightsAdultsReq.adults "1") = some 12 ∧
    (∃ m, GET flightsAdultsReq envKey 20737 oracleFail = (.err 400 m, [])) :=
  ⟨by decide, by decide, by decide, by decide,
   adults_range_rejected flightsAdultsReq envKey 20737 oracleFail
     (by decide) (by decide) (by decide)
     (Or.inr ⟨12, by decide, Or.inr (by decide)⟩)⟩

theorem findAirport_mem (input : String) (a : Airport)
    (h : findAirportByInput input = some a) : a ∈ airports := by
  simp only [findAirportByInput] at h
  split at h
  · exact absurd h (by simp)
  · repeat' split at h
    all_goals first
      | (injection h with h2; subst h2;
         exact List.mem_of_find?_eq_some (by assumption))
      | exact List.mem_of_find?_eq_some h

theorem airports_codes :
    ∀ a ∈ airports, a.code.length = 3 ∧ a.code.data.all Char.isAlpha = true := by
  decide

/-- C6: airport handling of the flights branch (route lines 439-489).  A
missing departure or arrival input is rejected with HTTP 400 and no
provider call; an input on which the lookup fails and which is not exactly
three alphabetic characters is likewise rejected; and when the request
reaches the provider, the `departure_id`/`arrival_id` it sends are exactly
the resolution of each input — the lookup result's code (a 3-letter code,
as every table entry's is) when the lookup succeeds, else the uppercased
3-letter input. -/
theorem airport_input_resolution (req : Request) (env : Env) (today : Int)
    (o : Oracle)
    (hq : jsFalsy req.q = false) (hk : jsFalsy env.SERPAPI_KEY = false)
    (ht : reqType req = "flights") :
    (jsOrStr req.departure_id "" = "" →
      ∃ m, GET req env today o = (.err 400 m, [])) ∧
    (jsOrStr req.arrival_id "" = "" →
      ∃ m, GET req env today o = (.err 400 m, [])) ∧
    (resolveAirportInput (jsOrStr req.departure_id "") = none →
      ∃ m, GET req env today o = (.err 400 m, [])) ∧
    (resolveAirportInput (jsOrStr req.arrival_id "") = none →
      ∃ m, GET req env today o = (.err 400 m, [])) ∧
    (∀ ps, ProviderCall.serpapi ps ∈ (GET req env today o).2 →
      ps.departure_id = resolveAirportInput (jsOrStr req.departure_id "") ∧
      ps.arrival_id = resolveAirportInput (jsOrStr req.arrival_id "")) ∧
    (∀ input a, findAirportByInput input = some a →
      resolveAirportInput input = some a.code) ∧
    (∀ input, findAirportByInput input = none →
      resolveAirportInput input =
        (if threeLetterCode input then some (jsToUpper input) else none)) ∧
    (∀ input a, findAirportByInput input = some a →
      a.code.length = 3 ∧ a.code.data.all Char.isAlpha = true) := by
  refine ⟨?_, ?_, ?_, ?_, ?_, ?_, ?_, ?_⟩
  · intro hd
    exact GET_flights_reject req env today o hq hk ht
      (flightsCase_airport_reject req today _ (Or.inl hd))
  · intro haemp
    exact GET_flights_reject req env today o hq hk ht
      (flightsCase_airport_reject req today _ (Or.inr (Or.inr (Or.inl haemp))))
  · intro hdn
    exact GET_flights_reject req env today o hq hk ht
      (flightsCase_airport_reject req today _ (Or.inr (Or.inl hdn)))
  · intro han
    exact GET_flights_reject req env today o hq hk ht
      (flightsCase_airport_reject req today _ (Or.inr (Or.inr (Or.inr han))))
  · intro ps hmem
    rcases GET_shape req env today o with
      ⟨hq', hG⟩ | ⟨hq', hb, hG⟩ | ⟨hq', hf, hG⟩ | ⟨hq', hb, hf, hk', hG⟩ |
      ⟨hq', hb, hf, hk', hrest⟩
    · simp [hG] at hmem
    · rw [hG, booksBranch_calls] at hmem; simp at hmem
    · rw [hG] at hmem
      have := financeBranch_providers (reqQuery req) o _ hmem
      simp [providerOf] at this
    · simp [hG] at hmem
    · rcases hrest with ⟨r, hbp, hG⟩ | ⟨ps', hbp, ⟨f, hserp, hG⟩ | ⟨d, hserp, hG⟩⟩
      · simp [hG] at hmem
      · rw [hG] at hmem
        simp at hmem
        subst hmem
        rw [ht, buildSerpParams_flights] at hbp
        exact flightsCase_ok_airports req today _ ps hbp
      · rw [hG] at hmem
        simp at hmem
        subst hmem
        rw [ht, buildSerpParams_flights] at hbp
        exact flightsCase_ok_airports req today _ ps hbp
  · intro input a hfind
    simp [resolveAirportInput, hfind]
  · intro input hfind
    simp [resolveAirportInput, hfind]
  · intro input a hfind
    exact airports_codes a (findAirport_mem input a hfind)

/-- A flights request whose departure is a city name and whose arrival is
an unknown 3-letter code (witness fixture). -/
def flightsResolveReq : Request :=
  { emptyRequest with
    q := some "x"
    type := some "flights"
    departure_id := some "chicago"
    arrival_id := some "xyz"
    outbound_date := some "2026-11-01"
    return_date := some "2026-11-05" }

/-- The SerpAPI parameters the witness request produces: the city resolved
through the table to ORD, the unknown code uppercased to XYZ. -/
def flightsResolvedParams : SerpParams :=
  { engine := "google_flights", q := none, api_key := "KEY", location := none,
    gl := "us", hl := "en", tbm := none, num := none, start := none,
    type := some "1", ll := none, departure_id := some "ORD",
    arrival_id := some "XYZ", outbound_date := some "2026-11-01",
    return_date := some "2026-11-05", travel_class := some "1",
    adults := some "1", currency := some "USD" }

/-- Witness for C6 at the concrete flights request. -/
theorem airport_input_resolution_witness :
    jsFalsy flightsResolveReq.q = false ∧
    jsFalsy envKey.SERPAPI_KEY = false ∧
    reqType flightsResolveReq = "flights" ∧
    ProviderCall.serpapi flightsResolvedParams ∈
      (GET flightsResolveReq envKey 20737 oracleFail).2 ∧
    (flightsResolvedParams.departure_id =
       resolveAirportInput (jsOrStr flightsResolveReq.departure_id "") ∧
     flightsResolvedParams.arrival_id =
       resolveAirportInput (jsOrStr flightsResolveReq.arrival_id "")) :=
  ⟨by decide, by decide, by decide, by decide,
   (airport_input_resolution flightsResolveReq envKey 20737 oracleFail
      (by decide) (by decide) (by decide)).2.2.2.2.1
     flightsResolvedParams (by decide)⟩
